import Mathlib

/-!
Shallow embedding of the Boulevard GraphQL client and pagination helper
(src/boulevard/lib/graphql.js and src/boulevard/lib/pagination.js).

JavaScript values flowing through these functions (parsed JSON bodies,
property lookups that may yield undefined) are modelled by an inductive
JsValue type; JS truthiness is modelled by a boolean function.  Numbers
are modelled as integers (the code paths under study never produce
fractional values; NaN and string/number intrinsic properties such as
.length are outside the modelled domain).  GraphQL error entries are
modelled at the wire-contract type declared in the source's JSDoc
(an array of objects with a string message and an optional path).

The HTTP transport is modelled as a transcript: a function from the
attempt number to the outcome the environment produces for that attempt
(a thrown exception, or a response with status, text, parsed body,
retry-after header and complexity header).  Similarly the pagination
walker takes the request engine as a function from the call index and
the variables to the engine's result.
-/

/-- A JavaScript value as seen by the client code: the JSON data tree
plus undefined (the result of a failed property lookup). -/
inductive JsValue where
  | undef : JsValue
  | null : JsValue
  | boolean : Bool → JsValue
  | number : Int → JsValue
  | str : String → JsValue
  | arr : List JsValue → JsValue
  | obj : List (String × JsValue) → JsValue
deriving Repr, BEq

/-- JS truthiness: undefined, null, false, 0 and the empty string are
falsy; every array and object is truthy. -/
def truthy : JsValue → Bool
  | JsValue.undef => false
  | JsValue.null => false
  | JsValue.boolean b => b
  | JsValue.number n => n != 0
  | JsValue.str s => s ≠ ""
  | JsValue.arr _ => true
  | JsValue.obj _ => true

/-- Property lookup on a plain object: a missing key, or a receiver that
is not a plain object, yields undefined.  (Intrinsic properties of
strings and numbers, e.g. .length, are not modelled; no code path under
study reads them.) -/
def jsGetField : JsValue → String → JsValue
  | JsValue.obj fields, key =>
    match fields.find? (fun p => p.1 == key) with
    | some p => p.2
    | none => JsValue.undef
  | _, _ => JsValue.undef

/-- One entry of a GraphQL errors array, at the type declared in the
source's JSDoc: a string message and an optional path. -/
structure GqlError where
  message : String
  path : Option (List String)
deriving Repr

/-- The value executeGraphQL resolves with: the parsed body's data and
errors fields plus the captured x-query-complexity header. -/
structure GraphQLResult where
  data : JsValue
  errors : Option (List GqlError)
  queryComplexity : Option String
deriving Repr

/-- hasErrors from graphql.js: response.errors && response.errors.length > 0. -/
def hasErrors (r : GraphQLResult) : Bool :=
  match r.errors with
  | some es => es.length > 0
  | none => false

/-- formatErrors from graphql.js: each message, with " at p.a.t.h" appended
when a path is present, joined by newlines; empty string for no errors. -/
def formatErrors (errors : Option (List GqlError)) : String :=
  match errors with
  | none => ""
  | some [] => ""
  | some es =>
    String.intercalate "\n" (es.map (fun e =>
      e.message ++ (match e.path with
        | some p => " at " ++ String.intercalate "." p
        | none => "")))

/-- Character-level test used to model the regex class \s (the whitespace
characters that occur in practice). -/
def isJsSpace (c : Char) : Bool :=
  c == ' ' || c == '\t' || c == '\n' || c == '\r' ||
  c == Char.ofNat 11 || c == Char.ofNat 12 || c == Char.ofNat 160

/-- Decimal digit test, modelling the regex class \d. -/
def isDigitChar (c : Char) : Bool :=
  '0' ≤ c && c ≤ '9'

/-- Numeric value of a digit string, modelling parseInt(digits, 10). -/
def digitsToNat (ds : List Char) : Nat :=
  ds.foldl (fun acc c => 10 * acc + (c.toNat - '0'.toNat)) 0

/-- Case-insensitive prefix test on character lists, modelling the /i
regex flag on ASCII letters. -/
def startsWithCI : List Char → List Char → Bool
  | [], _ => true
  | _ :: _, [] => false
  | p :: ps, c :: cs => p.toLower == c.toLower && startsWithCI ps cs

/-- Case-sensitive prefix test on character lists. -/
def startsWithCS : List Char → List Char → Bool
  | [], _ => true
  | _ :: _, [] => false
  | p :: ps, c :: cs => p == c && startsWithCS ps cs

/-- Substring containment on character lists, modelling
String.prototype.includes. -/
def hasSub (needle : List Char) : List Char → Bool
  | [] => startsWithCS needle []
  | c :: cs => startsWithCS needle (c :: cs) || hasSub needle cs

/-- includesSub s t: t.includes(s) on Lean strings. -/
def includesSub (needle hay : String) : Bool :=
  hasSub needle.toList hay.toList

/-- Attempt to match the regex wait\s+(\d+)ms (with the /i flag) at the
head of the character list, returning the numeric value of the captured
digit group.  Maximal munch on \s+ and \d+ is exact here because neither
class can absorb the character the following literal needs. -/
def matchWaitAt (cs : List Char) : Option Nat :=
  if startsWithCI "wait".toList cs then
    let afterWait := cs.drop 4
    let ws := afterWait.takeWhile isJsSpace
    let afterWs := afterWait.dropWhile isJsSpace
    if ws.isEmpty then none
    else
      let ds := afterWs.takeWhile isDigitChar
      let afterDs := afterWs.dropWhile isDigitChar
      if ds.isEmpty then none
      else if startsWithCI "ms".toList afterDs then some (digitsToNat ds)
      else none
  else none

/-- Leftmost match of wait\s+(\d+)ms in the character list, modelling
String.prototype.match returning the first match. -/
def findWait : List Char → Option Nat
  | [] => none
  | c :: cs =>
    match matchWaitAt (c :: cs) with
    | some n => some n
    | none => findWait cs

/-- parseWaitTime from graphql.js: the first "wait Nms" token's number,
or the 500ms fallback when the pattern does not match. -/
def parseWaitTime (message : String) : Nat :=
  match findWait message.toList with
  | some n => n
  | none => 500

/-- findRateLimitError from graphql.js: the first error whose message is
truthy and includes "API limit exceeded"; none when the errors field is
absent. -/
def findRateLimitError (errors : Option (List GqlError)) : Option GqlError :=
  match errors with
  | none => none
  | some es =>
    es.find? (fun e => e.message ≠ "" && includesSub "API limit exceeded" e.message)

/-- The JS Error object thrown by executeGraphQL's attempt body, with
the extra properties the code attaches (status, retryable, retryAfterMs). -/
structure JsError where
  name : String
  message : String
  status : Option Nat
  retryable : Bool
  retryAfterMs : Option Nat
deriving Repr

/-- Shape of the parsed response body as the dispatch in executeGraphQL
sees it after const result = responseText ? JSON.parse(responseText) : {}
(parse failure sets result = null). -/
inductive BodyKind where
  /-- JSON.parse threw, so result is null (falsy). -/
  | unparseable : BodyKind
  /-- JSON.parse succeeded but the value is falsy or not an object
  (a number, string or boolean), failing the typeof check. -/
  | nonObject : BodyKind
  /-- A (non-null) object: its data field and its errors array, typed at
  the wire contract.  An empty response text yields object undef none. -/
  | object : JsValue → Option (List GqlError) → BodyKind
deriving Repr

/-- Outcome the environment produces for one HTTP attempt: either fetch
(or reading the body) threw, or a response arrived with a status, status
text, raw body text, parsed body, numeric retry-after header (in seconds;
none when the header is absent or empty) and x-query-complexity header. -/
inductive AttemptOutcome where
  | thrown : String → String → AttemptOutcome
  | response : Nat → String → String → BodyKind → Option Nat → Option String → AttemptOutcome
deriving Repr

/-- The HTTP error object built for a non-OK status: message with a body
snippet truncated to 500 characters, the status, retryability (429 or
5xx), and the retry-after header converted to milliseconds. -/
def httpErrorOf (status : Nat) (statusText bodyText : String)
    (retryAfterSecs : Option Nat) : JsError :=
  { name := "Error"
    message := "HTTP " ++ toString status ++ " " ++ statusText ++
      (if bodyText ≠ "" then ": " ++ (bodyText.take 500) else "")
    status := some status
    retryable := status == 429 || 500 ≤ status
    retryAfterMs := retryAfterSecs.map (fun s => s * 1000) }

/-- The error thrown when the parsed body is null or not an object. -/
def invalidJsonError : JsError :=
  { name := "Error", message := "Invalid JSON response from server"
    status := none, retryable := true, retryAfterMs := none }

/-- A JS exception thrown by fetch itself (no status/retryable/retryAfterMs
properties, so the reads of those properties yield undefined). -/
def thrownErrorOf (name message : String) : JsError :=
  { name := name, message := message
    status := none, retryable := false, retryAfterMs := none }

/-- The fallback error thrown when the loop body never ran
(throw lastError || new Error(...)); unreachable for a Nat retry budget. -/
def requestFailedError : JsError :=
  { name := "Error", message := "GraphQL request failed after retries"
    status := none, retryable := false, retryAfterMs := none }

/-- The catch clause's classification:
err.retryable === true || err.name === 'TypeError'. -/
def isRetryableErr (e : JsError) : Bool :=
  e.retryable || e.name == "TypeError"

/-- Exponential backoff Math.min(1000 * Math.pow(2, attempt), 10000). -/
def backoffDelay (attempt : Nat) : Nat :=
  min (1000 * 2 ^ attempt) 10000

/-- Delay chosen in the catch clause:
retryAfterMs != null ? retryAfterMs : backoff. -/
def retryDelayOf (e : JsError) (attempt : Nat) : Nat :=
  match e.retryAfterMs with
  | some ms => ms
  | none => backoffDelay attempt

/-- What one call to executeGraphQL did: how many HTTP attempts it made,
the sleeps it performed between attempts (in order, in milliseconds), and
whether it resolved with a result or threw an error. -/
structure ExecResult where
  attempts : Nat
  delays : List Nat
  outcome : Except JsError GraphQLResult
deriving Repr

/-- HTTP status OK test: response.ok is true for statuses 200..299. -/
def statusOk (status : Nat) : Bool :=
  200 ≤ status && status ≤ 299

/-- The retry loop of executeGraphQL.  attempt is the current loop index;
fuel is the number of loop iterations still allowed (maxRetries + 1 -
attempt at the top-level call), so fuel = 0 is the loop exiting and
throwing lastError.  Each iteration consumes one transcript entry: a
non-OK status builds an HTTP error; an OK status with an unparseable or
non-object body builds the invalid-JSON error; an OK object body is
scanned for a rate-limit error, which triggers a sleep-and-retry when the
parsed wait time is nonzero and attempts remain, and otherwise the result
is returned.  Thrown errors are retried with backoff or Retry-After when
retryable and attempts remain, and are otherwise the terminal failure. -/
def execGo (outcomes : Nat → AttemptOutcome) (maxRetries : Nat) :
    Nat → Nat → ExecResult
  | _, 0 => { attempts := 0, delays := [], outcome := Except.error requestFailedError }
  | attempt, fuel + 1 =>
    match outcomes attempt with
    | AttemptOutcome.thrown name msg =>
      let e := thrownErrorOf name msg
      if isRetryableErr e ∧ attempt < maxRetries then
        let r := execGo outcomes maxRetries (attempt + 1) fuel
        { attempts := r.attempts + 1, delays := retryDelayOf e attempt :: r.delays
          outcome := r.outcome }
      else { attempts := 1, delays := [], outcome := Except.error e }
    | AttemptOutcome.response status statusText bodyText body retryAfterSecs qc =>
      if statusOk status then
        match body with
        | BodyKind.unparseable =>
          if isRetryableErr invalidJsonError ∧ attempt < maxRetries then
            let r := execGo outcomes maxRetries (attempt + 1) fuel
            { attempts := r.attempts + 1
              delays := retryDelayOf invalidJsonError attempt :: r.delays
              outcome := r.outcome }
          else { attempts := 1, delays := [], outcome := Except.error invalidJsonError }
        | BodyKind.nonObject =>
          if isRetryableErr invalidJsonError ∧ attempt < maxRetries then
            let r := execGo outcomes maxRetries (attempt + 1) fuel
            { attempts := r.attempts + 1
              delays := retryDelayOf invalidJsonError attempt :: r.delays
              outcome := r.outcome }
          else { attempts := 1, delays := [], outcome := Except.error invalidJsonError }
        | BodyKind.object dataVal errorsVal =>
          match findRateLimitError errorsVal with
          | some ge =>
            let waitMs := parseWaitTime ge.message
            if waitMs ≠ 0 ∧ attempt < maxRetries then
              let r := execGo outcomes maxRetries (attempt + 1) fuel
              { attempts := r.attempts + 1, delays := waitMs :: r.delays
                outcome := r.outcome }
            else
              { attempts := 1, delays := []
                outcome := Except.ok ⟨dataVal, errorsVal, qc⟩ }
          | none =>
            { attempts := 1, delays := []
              outcome := Except.ok ⟨dataVal, errorsVal, qc⟩ }
      else
        let e := httpErrorOf status statusText bodyText retryAfterSecs
        if isRetryableErr e ∧ attempt < maxRetries then
          let r := execGo outcomes maxRetries (attempt + 1) fuel
          { attempts := r.attempts + 1, delays := retryDelayOf e attempt :: r.delays
            outcome := r.outcome }
        else { attempts := 1, delays := [], outcome := Except.error e }

/-- executeGraphQL from graphql.js over an attempt transcript: the loop
runs attempts 0..maxRetries, so the initial fuel is maxRetries + 1. -/
def executeGraphQL (outcomes : Nat → AttemptOutcome) (maxRetries : Nat) : ExecResult :=
  execGo outcomes maxRetries 0 (maxRetries + 1)

/-- Strict identity test against undefined, modelling !== undefined. -/
def isUndef : JsValue → Bool
  | JsValue.undef => true
  | _ => false

/-- Splitting a character list at every dot, modelling path.split('.')
(adjacent dots yield empty segments, as in JS). -/
def splitDots : List Char → List (List Char)
  | [] => [[]]
  | c :: rest =>
    if c = '.' then [] :: splitDots rest
    else
      match splitDots rest with
      | g :: gs => (c :: g) :: gs
      | [] => [[c]]

/-- The dot-separated segments of a path string. -/
def pathSegments (path : String) : List String :=
  (splitDots path.toList).map (fun g => String.mk g)

/-- getNestedValue from pagination.js: dot-path lookup where a falsy
intermediate value or a key resolving to undefined yields undefined; a
falsy root or an empty path yields undefined immediately. -/
def getNestedValue (root : JsValue) (path : String) : JsValue :=
  if !truthy root || path = "" then JsValue.undef
  else
    (pathSegments path).foldl
      (fun current key =>
        if truthy current && !isUndef (jsGetField current key) then
          jsGetField current key
        else JsValue.undef)
      root

/-- DEFAULT_PAGE_SIZE from pagination.js. -/
def DEFAULT_PAGE_SIZE : Nat := 100

/-- MAX_PAGES from pagination.js: safety limit to prevent infinite loops. -/
def MAX_PAGES : Nat := 100

/-- The variables object fetchAllPages builds for one engine call; the
caller's extraVariables do not influence the walker's control flow and
are omitted.  after is a JsValue because the cursor starts as null and is
later whatever pageInfo.endCursor held. -/
structure PageVariables where
  first : Nat
  after : JsValue
deriving Repr

/-- The request engine as the walker sees it: one result per call, as a
function of the call index (= the walker's page count at the call site)
and the variables.  Except.error is executeGraphQL throwing. -/
def Engine : Type :=
  Nat → PageVariables → Except JsError GraphQLResult

/-- The edges loop of fetchAllPages:
for (const edge of edges) if (edge && edge.node) allNodes.push(edge.node). -/
def pushNodes (acc : List JsValue) (edges : List JsValue) : List JsValue :=
  edges.foldl
    (fun acc edge =>
      if truthy edge && truthy (jsGetField edge "node") then
        acc ++ [jsGetField edge "node"]
      else acc)
    acc

/-- The error thrown on an engine result with errors:
new Error("GraphQL error: " + formatErrors(response.errors)). -/
def gqlAppError (errors : Option (List GqlError)) : JsError :=
  { name := "Error", message := "GraphQL error: " ++ formatErrors errors
    status := none, retryable := false, retryAfterMs := none }

/-- The error thrown when the connection path resolves to a falsy value:
new Error("Connection not found at path: " + connectionPath). -/
def connNotFoundError (path : String) : JsError :=
  { name := "Error", message := "Connection not found at path: " ++ path
    status := none, retryable := false, retryAfterMs := none }

/-- The TypeError raised by for..of over a truthy non-iterable edges value. -/
def edgesNotIterableError : JsError :=
  { name := "TypeError", message := "edges is not iterable"
    status := none, retryable := false, retryAfterMs := none }

/-- What one call to fetchAllPages did: the list it resolved with or the
error it threw, the number of engine calls it made, and whether the
max-pages warning was printed. -/
structure FetchResult where
  result : Except JsError (List JsValue)
  calls : Nat
  warned : Bool
deriving Repr

/-- connection.edges || [] followed by for..of: a falsy edges property
iterates nothing; a truthy non-array would make for..of throw. -/
def edgesListOf (connection : JsValue) : Except JsError (List JsValue) :=
  let v := jsGetField connection "edges"
  if truthy v then
    match v with
    | JsValue.arr xs => Except.ok xs
    | _ => Except.error edgesNotIterableError
  else Except.ok []

/-- The while loop of fetchAllPages.  remaining = maxPages - pageCount,
so the loop condition pageCount < maxPages is remaining > 0, and the
final warning pageCount >= maxPages is remaining = 0 at loop exit.  Each
iteration: one engine call; throw on an errors array; resolve the
connection path, throwing when it is falsy; append each truthy edge's
truthy node; stop when pageInfo is falsy or hasNextPage is falsy, else
advance the cursor to pageInfo.endCursor.  A thrown error suppresses the
warning (the function exits before the check). -/
def fetchGo (engine : Engine) (connectionPath : String) (pageSize : Nat) :
    Nat → Nat → JsValue → List JsValue → FetchResult
  | 0, _, _, acc => { result := Except.ok acc, calls := 0, warned := true }
  | remaining + 1, pageCount, cursor, acc =>
    match engine pageCount { first := pageSize, after := cursor } with
    | Except.error e => { result := Except.error e, calls := 1, warned := false }
    | Except.ok response =>
      if hasErrors response then
        { result := Except.error (gqlAppError response.errors), calls := 1, warned := false }
      else
        let connection := getNestedValue response.data connectionPath
        if !truthy connection then
          { result := Except.error (connNotFoundError connectionPath)
            calls := 1, warned := false }
        else
          match edgesListOf connection with
          | Except.error e => { result := Except.error e, calls := 1, warned := false }
          | Except.ok edges =>
            let acc₂ := pushNodes acc edges
            let pageInfo := jsGetField connection "pageInfo"
            if !truthy pageInfo || !truthy (jsGetField pageInfo "hasNextPage") then
              { result := Except.ok acc₂, calls := 1, warned := remaining == 0 }
            else
              let r := fetchGo engine connectionPath pageSize remaining
                (pageCount + 1) (jsGetField pageInfo "endCursor") acc₂
              { result := r.result, calls := r.calls + 1, warned := r.warned }

/-- fetchAllPages from pagination.js over an engine transcript: cursor
starts at null, page count at 0.  pageSize and maxPages default to
DEFAULT_PAGE_SIZE and MAX_PAGES at call sites that pass no options. -/
def fetchAllPages (engine : Engine) (connectionPath : String)
    (pageSize maxPages : Nat) : FetchResult :=
  fetchGo engine connectionPath pageSize maxPages 0 JsValue.null []

/-- An attempt outcome on which the attempt body raises a retryable
error: a 429 or 5xx status, an OK status whose body is unparseable or
not an object, or a network-level exception (a TypeError, which is what
fetch throws on connection failures). -/
def isTransientFailure : AttemptOutcome → Bool
  | AttemptOutcome.thrown name _ => name == "TypeError"
  | AttemptOutcome.response status _ _ body _ _ =>
    if statusOk status then
      match body with
      | BodyKind.unparseable => true
      | BodyKind.nonObject => true
      | BodyKind.object _ _ => false
    else status == 429 || 500 ≤ status

/-- The error the attempt body raises for a given outcome (none when the
outcome is an OK response with an object body, which does not raise). -/
def attemptErrorOf : AttemptOutcome → Option JsError
  | AttemptOutcome.thrown name msg => some (thrownErrorOf name msg)
  | AttemptOutcome.response status statusText bodyText body retryAfterSecs _ =>
    if statusOk status then
      match body with
      | BodyKind.unparseable => some invalidJsonError
      | BodyKind.nonObject => some invalidJsonError
      | BodyKind.object _ _ => none
    else some (httpErrorOf status statusText bodyText retryAfterSecs)

/-- A Relay edge wrapping one node, as the mocked server serves it. -/
def mkEdge (n : JsValue) : JsValue :=
  JsValue.obj [("node", n)]

/-- A mocked single-connection page under the key "items": the given
nodes wrapped as edges, plus a pageInfo with the given hasNextPage value
and endCursor. -/
def pageResult (ns : List JsValue) (hasNext : JsValue) (cursor : JsValue) : GraphQLResult :=
  { data := JsValue.obj [("items",
      JsValue.obj [("edges", JsValue.arr (ns.map mkEdge)),
        ("pageInfo", JsValue.obj [("hasNextPage", hasNext), ("endCursor", cursor)])])]
    errors := none
    queryComplexity := none }

/-- A mocked page under the key "items" carrying raw edge values and no
pageInfo at all (so pagination stops after it). -/
def edgesOnlyResult (es : List JsValue) : GraphQLResult :=
  { data := JsValue.obj [("items", JsValue.obj [("edges", JsValue.arr es)])]
    errors := none
    queryComplexity := none }

/-- A Boulevard rate-limit message carrying an explicit wait time. -/
def rateLimitMsg437 : String :=
  "API limit exceeded. Please wait 437ms and try again."

/-- Transcript in which every attempt yields HTTP 200 with a body whose
errors array is exactly one rate-limit error asking for a 437ms wait. -/
def rateLimitedOutcomes : Nat → AttemptOutcome := fun _ =>
  AttemptOutcome.response 200 "OK" "body"
    (BodyKind.object JsValue.undef (some [⟨rateLimitMsg437, none⟩])) none none

/-- Engine whose every response resolves the connection path to the
truthy non-object string value "oops". -/
def stringConnectionEngine : Engine := fun _ _ =>
  Except.ok { data := JsValue.obj [("items", JsValue.str "oops")]
              errors := none, queryComplexity := none }

lemma httpError_not_retryable (status : Nat) (statusText bodyText : String)
    (retryAfterSecs : Option Nat) (h429 : status ≠ 429) (h5xx : status < 500) :
    isRetryableErr (httpErrorOf status statusText bodyText retryAfterSecs) = false := by
  simp only [isRetryableErr, httpErrorOf, Bool.or_eq_false_iff]
  refine ⟨⟨?_, ?_⟩, by decide⟩
  · simp [h429]
  · simp; omega

lemma httpError_retryable (status : Nat) (statusText bodyText : String)
    (retryAfterSecs : Option Nat) (h : status = 429 ∨ 500 ≤ status) :
    isRetryableErr (httpErrorOf status statusText bodyText retryAfterSecs) = true := by
  simp only [isRetryableErr, httpErrorOf, Bool.or_eq_true_iff]
  left
  rcases h with h | h
  · left; simp [h]
  · right; simp [h]

lemma attemptErrorOf_isSome_of_transient (o : AttemptOutcome)
    (h : isTransientFailure o = true) : ∃ e, attemptErrorOf o = some e := by
  cases o with
  | thrown name msg => exact ⟨_, rfl⟩
  | response status statusText bodyText body retryAfterSecs qc =>
    by_cases hok : statusOk status = true
    · cases body with
      | unparseable => exact ⟨invalidJsonError, by simp [attemptErrorOf, hok]⟩
      | nonObject => exact ⟨invalidJsonError, by simp [attemptErrorOf, hok]⟩
      | object d es => simp [isTransientFailure, hok] at h
    · have hok' : statusOk status = false := by simpa using hok
      exact ⟨httpErrorOf status statusText bodyText retryAfterSecs,
        by simp [attemptErrorOf, hok']⟩

lemma execGo_transient (outcomes : Nat → AttemptOutcome) (maxRetries : Nat) :
    ∀ fuel attempt, attempt + fuel = maxRetries →
    (∀ i, attempt ≤ i → i ≤ maxRetries → isTransientFailure (outcomes i) = true) →
    (execGo outcomes maxRetries attempt (fuel + 1)).attempts = fuel + 1 ∧
    (execGo outcomes maxRetries attempt (fuel + 1)).outcome =
      Except.error ((attemptErrorOf (outcomes maxRetries)).getD requestFailedError) := by
  intro fuel
  induction fuel with
  | zero =>
    intro attempt hsum hall
    have heq : attempt = maxRetries := by omega
    subst heq
    have ht := hall attempt (Nat.le_refl _) (Nat.le_refl _)
    cases ho : outcomes attempt with
    | thrown name msg =>
      have hname : (name == "TypeError") = true := by
        simpa [isTransientFailure, ho] using ht
      simp [execGo, ho, attemptErrorOf]
    | response status statusText bodyText body retryAfterSecs qc =>
      by_cases hok : statusOk status = true
      · cases body with
        | unparseable => simp [execGo, ho, hok, attemptErrorOf]
        | nonObject => simp [execGo, ho, hok, attemptErrorOf]
        | object d es => simp [isTransientFailure, ho, hok] at ht
      · have hok' : statusOk status = false := by simpa using hok
        simp [execGo, ho, hok', attemptErrorOf]
  | succ fuel ih =>
    intro attempt hsum hall
    have hlt : attempt < maxRetries := by omega
    have hnext : attempt + 1 + fuel = maxRetries := by omega
    have hall' : ∀ i, attempt + 1 ≤ i → i ≤ maxRetries →
        isTransientFailure (outcomes i) = true :=
      fun i h1 h2 => hall i (by omega) h2
    have ht := hall attempt (Nat.le_refl _) (by omega)
    obtain ⟨iha, iho⟩ := ih (attempt + 1) hnext hall'
    cases ho : outcomes attempt with
    | thrown name msg =>
      have hname : (name == "TypeError") = true := by
        simpa [isTransientFailure, ho] using ht
      have hre : isRetryableErr (thrownErrorOf name msg) = true := by
        simp [isRetryableErr, thrownErrorOf, hname]
      simp only [execGo, ho]
      rw [if_pos ⟨hre, hlt⟩]
      exact ⟨by simpa using iha, by simpa using iho⟩
    | response status statusText bodyText body retryAfterSecs qc =>
      by_cases hok : statusOk status = true
      · cases body with
        | unparseable =>
          simp only [execGo, ho, hok, if_true]
          rw [if_pos ⟨by simp [isRetryableErr, invalidJsonError], hlt⟩]
          exact ⟨by simpa using iha, by simpa using iho⟩
        | nonObject =>
          simp only [execGo, ho, hok, if_true]
          rw [if_pos ⟨by simp [isRetryableErr, invalidJsonError], hlt⟩]
          exact ⟨by simpa using iha, by simpa using iho⟩
        | object d es => simp [isTransientFailure, ho, hok] at ht
      · have hok' : statusOk status = false := by simpa using hok
        have hret : (status = 429 ∨ 500 ≤ status) := by
          have := ht
          simp [isTransientFailure, ho, hok'] at this
          exact this
        have hre := httpError_retryable status statusText bodyText retryAfterSecs hret
        simp only [execGo, ho, hok', Bool.false_eq_true, if_false]
        rw [if_pos ⟨hre, hlt⟩]
        exact ⟨by simpa using iha, by simpa using iho⟩

/-- C1: when every attempt fails with a retryable transient error (429 or
5xx status, unparseable body, or network-level TypeError), executeGraphQL
with retry budget N performs exactly N + 1 HTTP attempts and then throws
the error raised by the last attempt. -/
theorem executeGraphQL_exhaustsBudget_onTransientFailures
    (outcomes : Nat → AttemptOutcome) (N : Nat)
    (h : ∀ i, i ≤ N → isTransientFailure (outcomes i) = true) :
    (executeGraphQL outcomes N).attempts = N + 1 ∧
    ∃ e, attemptErrorOf (outcomes N) = some e ∧
      (executeGraphQL outcomes N).outcome = Except.error e := by
  obtain ⟨ha, ho⟩ :=
    execGo_transient outcomes N N 0 (by omega) (fun i _ h2 => h i h2)
  obtain ⟨e, he⟩ := attemptErrorOf_isSome_of_transient (outcomes N) (h N (Nat.le_refl _))
  refine ⟨ha, e, he, ?_⟩
  rw [executeGraphQL] at *
  rw [ho, he]
  rfl

/-- Witness for C1: three straight 500 responses under budget 2 give 3
attempts and the final HTTP 500 error. -/
theorem executeGraphQL_exhaustsBudget_witness :
    (executeGraphQL
      (fun _ => AttemptOutcome.response 500 "Internal Server Error" ""
        BodyKind.unparseable none none) 2).attempts = 2 + 1 ∧
    ∃ e, attemptErrorOf
        ((fun _ => AttemptOutcome.response 500 "Internal Server Error" ""
          BodyKind.unparseable none none) 2) = some e ∧
      (executeGraphQL
        (fun _ => AttemptOutcome.response 500 "Internal Server Error" ""
          BodyKind.unparseable none none) 2).outcome = Except.error e :=
  executeGraphQL_exhaustsBudget_onTransientFailures
    (fun _ => AttemptOutcome.response 500 "Internal Server Error" ""
      BodyKind.unparseable none none) 2 (fun _ _ => rfl)

@[simp] lemma truthy_undef : truthy JsValue.undef = false := rfl

@[simp] lemma truthy_null : truthy JsValue.null = false := rfl

@[simp] lemma truthy_boolean (b : Bool) : truthy (JsValue.boolean b) = b := rfl

@[simp] lemma truthy_arr (xs : List JsValue) : truthy (JsValue.arr xs) = true := rfl

@[simp] lemma truthy_obj (fs : List (String × JsValue)) :
    truthy (JsValue.obj fs) = true := rfl

@[simp] lemma isUndef_undef : isUndef JsValue.undef = true := rfl

@[simp] lemma isUndef_arr (xs : List JsValue) : isUndef (JsValue.arr xs) = false := rfl

@[simp] lemma isUndef_obj (fs : List (String × JsValue)) :
    isUndef (JsValue.obj fs) = false := rfl

@[simp] lemma jsGetField_objNil (key : String) :
    jsGetField (JsValue.obj []) key = JsValue.undef := rfl

@[simp] lemma jsGetField_objCons (k : String) (v : JsValue)
    (fs : List (String × JsValue)) (key : String) :
    jsGetField (JsValue.obj ((k, v) :: fs)) key =
      if (k == key) = true then v else jsGetField (JsValue.obj fs) key := by
  by_cases h : (k == key) = true <;> simp [jsGetField, List.find?_cons, h]

lemma getNestedValue_singleKey (v : JsValue) :
    getNestedValue v "items" =
      if truthy v && !isUndef (jsGetField v "items") then jsGetField v "items"
      else JsValue.undef := by
  rw [getNestedValue, show pathSegments "items" = ["items"] from rfl]
  by_cases hv : truthy v = true
  · simp [hv, List.foldl]
  · simp [Bool.eq_false_iff.mpr (by simpa using hv : truthy v ≠ true), List.foldl]

lemma pushNodes_cons (acc : List JsValue) (e : JsValue) (es : List JsValue) :
    pushNodes acc (e :: es) =
      pushNodes
        (if truthy e && truthy (jsGetField e "node") then
          acc ++ [jsGetField e "node"]
        else acc) es := rfl

@[simp] lemma truthy_mkEdge (n : JsValue) : truthy (mkEdge n) = true := rfl

@[simp] lemma jsGetField_mkEdge (n : JsValue) : jsGetField (mkEdge n) "node" = n := by
  simp [mkEdge]

lemma fetchGo_goodPage (engine : Engine) (pageSize remaining pageCount : Nat)
    (cursor : JsValue) (acc ns : List JsValue) (hasNext cur : JsValue)
    (heng : engine pageCount ⟨pageSize, cursor⟩ = Except.ok (pageResult ns hasNext cur))
    (hhn : truthy hasNext = true) :
    fetchGo engine "items" pageSize (remaining + 1) pageCount cursor acc =
      { result := (fetchGo engine "items" pageSize remaining (pageCount + 1) cur
          (pushNodes acc (ns.map mkEdge))).result
        calls := (fetchGo engine "items" pageSize remaining (pageCount + 1) cur
          (pushNodes acc (ns.map mkEdge))).calls + 1
        warned := (fetchGo engine "items" pageSize remaining (pageCount + 1) cur
          (pushNodes acc (ns.map mkEdge))).warned } := by
  simp [fetchGo, heng, pageResult, hasErrors, getNestedValue_singleKey,
    edgesListOf, hhn]

lemma fetchGo_stopPage (engine : Engine) (pageSize remaining pageCount : Nat)
    (cursor : JsValue) (acc ns : List JsValue) (hasNext cur : JsValue)
    (heng : engine pageCount ⟨pageSize, cursor⟩ = Except.ok (pageResult ns hasNext cur))
    (hhn : truthy hasNext = false) :
    fetchGo engine "items" pageSize (remaining + 1) pageCount cursor acc =
      { result := Except.ok (pushNodes acc (ns.map mkEdge))
        calls := 1
        warned := remaining == 0 } := by
  simp [fetchGo, heng, pageResult, hasErrors, getNestedValue_singleKey,
    edgesListOf, hhn]

lemma fetchGo_errorPage (engine : Engine) (path : String)
    (pageSize remaining pageCount : Nat) (cursor : JsValue) (acc : List JsValue)
    (d : JsValue) (es : List GqlError) (qc : Option String)
    (heng : engine pageCount ⟨pageSize, cursor⟩ = Except.ok ⟨d, some es, qc⟩)
    (hes : es ≠ []) :
    fetchGo engine path pageSize (remaining + 1) pageCount cursor acc =
      { result := Except.error (gqlAppError (some es)), calls := 1, warned := false } := by
  have hlen : 0 < es.length := List.length_pos.mpr hes
  simp [fetchGo, heng, hasErrors, hlen]

lemma pushNodes_map_mkEdge (ns : List JsValue) :
    ∀ acc, (∀ n ∈ ns, truthy n = true) → pushNodes acc (ns.map mkEdge) = acc ++ ns := by
  induction ns with
  | nil => intro acc _; simp [pushNodes]
  | cons n ns ih =>
    intro acc h
    have hn : truthy n = true := h n (by simp)
    rw [List.map_cons, pushNodes_cons]
    simp only [truthy_mkEdge, jsGetField_mkEdge, Bool.true_and, hn, if_true]
    rw [ih (acc ++ [n]) (fun m hm => h m (by simp [hm]))]
    simp

lemma pushNodes_eq_filtered (es : List JsValue) :
    ∀ acc, pushNodes acc es =
      acc ++ (es.filter (fun e => truthy e && truthy (jsGetField e "node"))).map
        (fun e => jsGetField e "node") := by
  induction es with
  | nil => intro acc; simp [pushNodes]
  | cons e es ih =>
    intro acc
    rw [pushNodes_cons, List.filter_cons]
    by_cases hc : (truthy e && truthy (jsGetField e "node")) = true
    · rw [if_pos hc, ih, if_pos hc]
      simp
    · rw [if_neg hc, ih, if_neg hc]

/-- C2: a three-page collection (page sizes 100, 100, 37) with correctly
sequenced hasNextPage and endCursor values makes fetchAllPages (at the
default page size and max pages) return exactly the 237 nodes in server
order, using exactly 3 engine calls, stopping on the third page's
hasNextPage false. -/
theorem fetchAllPages_threePages_complete
    (engine : Engine) (ns1 ns2 ns3 : List JsValue)
    (h1 : engine 0 ⟨DEFAULT_PAGE_SIZE, JsValue.null⟩ =
      Except.ok (pageResult ns1 (JsValue.boolean true) (JsValue.str "c1")))
    (h2 : engine 1 ⟨DEFAULT_PAGE_SIZE, JsValue.str "c1"⟩ =
      Except.ok (pageResult ns2 (JsValue.boolean true) (JsValue.str "c2")))
    (h3 : engine 2 ⟨DEFAULT_PAGE_SIZE, JsValue.str "c2"⟩ =
      Except.ok (pageResult ns3 (JsValue.boolean false) (JsValue.str "c3")))
    (ht1 : ∀ n ∈ ns1, truthy n = true)
    (ht2 : ∀ n ∈ ns2, truthy n = true)
    (ht3 : ∀ n ∈ ns3, truthy n = true)
    (hl1 : ns1.length = 100) (hl2 : ns2.length = 100) (hl3 : ns3.length = 37) :
    fetchAllPages engine "items" DEFAULT_PAGE_SIZE MAX_PAGES =
      { result := Except.ok (ns1 ++ ns2 ++ ns3), calls := 3, warned := false } ∧
    (ns1 ++ ns2 ++ ns3).length = 237 := by
  constructor
  · rw [fetchAllPages, show MAX_PAGES = 99 + 1 from rfl]
    rw [fetchGo_goodPage engine DEFAULT_PAGE_SIZE 99 0 JsValue.null [] ns1
      (JsValue.boolean true) (JsValue.str "c1") h1 rfl]
    rw [pushNodes_map_mkEdge ns1 [] ht1, List.nil_append]
    rw [show (99 : Nat) = 98 + 1 from rfl]
    rw [fetchGo_goodPage engine DEFAULT_PAGE_SIZE 98 1 (JsValue.str "c1") ns1 ns2
      (JsValue.boolean true) (JsValue.str "c2") h2 rfl]
    rw [pushNodes_map_mkEdge ns2 ns1 ht2]
    rw [show (98 : Nat) = 97 + 1 from rfl]
    rw [fetchGo_stopPage engine DEFAULT_PAGE_SIZE 97 2 (JsValue.str "c2") (ns1 ++ ns2)
      ns3 (JsValue.boolean false) (JsValue.str "c3") h3 rfl]
    rw [pushNodes_map_mkEdge ns3 (ns1 ++ ns2) ht3]
    rfl
  · simp [hl1, hl2, hl3]

/-- Witness for C2 at a concrete engine serving pages of 100, 100 and 37
numbered object nodes. -/
theorem fetchAllPages_threePages_witness :
    fetchAllPages
      (fun i _ =>
        Except.ok (pageResult
          ((List.range (if i = 0 then 100 else if i = 1 then 100 else 37)).map
            (fun j => JsValue.obj [("id", JsValue.number (Int.ofNat (100 * i + j)))]))
          (JsValue.boolean (i < 2))
          (JsValue.str (if i = 0 then "c1" else if i = 1 then "c2" else "c3"))))
      "items" DEFAULT_PAGE_SIZE MAX_PAGES =
      { result := Except.ok
          (((List.range 100).map
              (fun j => JsValue.obj [("id", JsValue.number (Int.ofNat j))])) ++
            ((List.range 100).map
              (fun j => JsValue.obj [("id", JsValue.number (Int.ofNat (100 + j)))])) ++
            ((List.range 37).map
              (fun j => JsValue.obj [("id", JsValue.number (Int.ofNat (200 + j)))])))
        calls := 3, warned := false } ∧
    ((((List.range 100).map
        (fun j => JsValue.obj [("id", JsValue.number (Int.ofNat j))])) ++
      ((List.range 100).map
        (fun j => JsValue.obj [("id", JsValue.number (Int.ofNat (100 + j)))])) ++
      ((List.range 37).map
        (fun j => JsValue.obj [("id", JsValue.number (Int.ofNat (200 + j)))]))).length = 237) :=
  fetchAllPages_threePages_complete _ _ _ _ rfl rfl rfl
    (by intro n hn; simp at hn; obtain ⟨j, hj, rfl⟩ := hn; rfl)
    (by intro n hn; simp at hn; obtain ⟨j, hj, rfl⟩ := hn; rfl)
    (by intro n hn; simp at hn; obtain ⟨j, hj, rfl⟩ := hn; rfl)
    (by simp) (by simp) (by simp)

lemma fetchGo_allGoodPages (engine : Engine) (pageSize : Nat)
    (ns : Nat → List JsValue) (hn cur : Nat → JsValue)
    (heng : ∀ i vars, engine i vars = Except.ok (pageResult (ns i) (hn i) (cur i)))
    (hhn : ∀ i, truthy (hn i) = true)
    (ht : ∀ i, ∀ n ∈ ns i, truthy n = true)
    (hl : ∀ i, (ns i).length = pageSize) :
    ∀ remaining pageCount cursor acc,
    ∃ L, fetchGo engine "items" pageSize remaining pageCount cursor acc =
      { result := Except.ok (acc ++ L), calls := remaining, warned := true } ∧
      L.length = remaining * pageSize := by
  intro remaining
  induction remaining with
  | zero =>
    intro pc cursor acc
    exact ⟨[], by simp [fetchGo], by simp⟩
  | succ r ih =>
    intro pc cursor acc
    obtain ⟨L, hL, hlen⟩ := ih (pc + 1) (cur pc) (acc ++ ns pc)
    refine ⟨ns pc ++ L, ?_, ?_⟩
    · rw [fetchGo_goodPage engine pageSize r pc cursor acc (ns pc) (hn pc) (cur pc)
        (heng pc _) (hhn pc)]
      rw [pushNodes_map_mkEdge (ns pc) acc (ht pc), hL]
      simp
    · rw [List.length_append, hl pc, hlen, Nat.succ_mul]
      omega

/-- C7: when every response claims a truthy hasNextPage (so the server
never reports the last page) and every page supplies pageSize good
edges, fetchAllPages with maxPages = 5 returns exactly 5 * pageSize
items, emits the truncation warning and does not throw. -/
theorem fetchAllPages_safetyValve
    (engine : Engine) (pageSize : Nat)
    (ns : Nat → List JsValue) (hn cur : Nat → JsValue)
    (heng : ∀ i vars, engine i vars = Except.ok (pageResult (ns i) (hn i) (cur i)))
    (hhn : ∀ i, truthy (hn i) = true)
    (ht : ∀ i, ∀ n ∈ ns i, truthy n = true)
    (hl : ∀ i, (ns i).length = pageSize) :
    ∃ L, fetchAllPages engine "items" pageSize 5 =
      { result := Except.ok L, calls := 5, warned := true } ∧
      L.length = 5 * pageSize := by
  obtain ⟨L, hL, hlen⟩ :=
    fetchGo_allGoodPages engine pageSize ns hn cur heng hhn ht hl 5 0 JsValue.null []
  exact ⟨L, by simpa [fetchAllPages] using hL, hlen⟩

/-- Witness for C7 at a one-node-per-page engine that always claims a
next page. -/
theorem fetchAllPages_safetyValve_witness :
    ∃ L, fetchAllPages
        (fun _ _ => Except.ok (pageResult [JsValue.obj []] (JsValue.boolean true) JsValue.null))
        "items" 1 5 =
      { result := Except.ok L, calls := 5, warned := true } ∧
      L.length = 5 * 1 :=
  fetchAllPages_safetyValve _ 1 (fun _ => [JsValue.obj []])
    (fun _ => JsValue.boolean true) (fun _ => JsValue.null)
    (fun _ _ => rfl) (fun _ => rfl)
    (fun _ n hn => by simp at hn; rw [hn]; rfl) (fun _ => rfl)

lemma fetchGo_errorAtPage (engine : Engine) (pageSize : Nat)
    (ns : Nat → List JsValue) (cur : Nat → JsValue)
    (d : JsValue) (es : List GqlError) (qc : Option String) (hes : es ≠ []) :
    ∀ k r pc cursor acc, k < r →
    (∀ i, i < k → ∀ vars, engine (pc + i) vars =
      Except.ok (pageResult (ns (pc + i)) (JsValue.boolean true) (cur (pc + i)))) →
    (∀ vars, engine (pc + k) vars = Except.ok ⟨d, some es, qc⟩) →
    fetchGo engine "items" pageSize r pc cursor acc =
      { result := Except.error (gqlAppError (some es)), calls := k + 1, warned := false } := by
  intro k
  induction k with
  | zero =>
    intro r pc cursor acc hk hgood herr
    obtain ⟨r', rfl⟩ : ∃ r', r = r' + 1 := ⟨r - 1, by omega⟩
    exact fetchGo_errorPage engine "items" pageSize r' pc cursor acc d es qc
      (by simpa using herr ⟨pageSize, cursor⟩) hes
  | succ k ih =>
    intro r pc cursor acc hk hgood herr
    obtain ⟨r', rfl⟩ : ∃ r', r = r' + 1 := ⟨r - 1, by omega⟩
    have hg0 : engine pc ⟨pageSize, cursor⟩ =
        Except.ok (pageResult (ns pc) (JsValue.boolean true) (cur pc)) := by
      simpa using hgood 0 (by omega) ⟨pageSize, cursor⟩
    rw [fetchGo_goodPage engine pageSize r' pc cursor acc (ns pc)
      (JsValue.boolean true) (cur pc) hg0 rfl]
    rw [ih r' (pc + 1) (cur pc) (pushNodes acc ((ns pc).map mkEdge)) (by omega)
      (fun i hi vars => by
        have h := hgood (i + 1) (by omega) vars
        rwa [show pc + (i + 1) = pc + 1 + i from by omega] at h)
      (fun vars => by
        have h := herr vars
        rwa [show pc + (k + 1) = pc + 1 + k from by omega] at h)]

/-- C8: when the first k pages are good pages with a next page and the
page at index k (k < maxPages) carries a non-empty application-level
errors array, fetchAllPages throws the formatted GraphQL error after
k + 1 engine calls, and the caller receives no accumulated item list. -/
theorem fetchAllPages_abortsOnAppError
    (engine : Engine) (pageSize maxPages k : Nat)
    (ns : Nat → List JsValue) (cur : Nat → JsValue)
    (d : JsValue) (es : List GqlError) (qc : Option String)
    (hk : k < maxPages) (hes : es ≠ [])
    (hgood : ∀ i, i < k → ∀ vars, engine i vars =
      Except.ok (pageResult (ns i) (JsValue.boolean true) (cur i)))
    (herr : ∀ vars, engine k vars = Except.ok ⟨d, some es, qc⟩) :
    fetchAllPages engine "items" pageSize maxPages =
      { result := Except.error (gqlAppError (some es)), calls := k + 1, warned := false } := by
  rw [fetchAllPages]
  exact fetchGo_errorAtPage engine pageSize ns cur d es qc hes k maxPages 0
    JsValue.null [] hk
    (fun i hi vars => by simpa using hgood i hi vars)
    (fun vars => by simpa using herr vars)

/-- Witness for C8: the second page's application error aborts the run
after 2 calls with the formatted error. -/
theorem fetchAllPages_abortsOnAppError_witness :
    fetchAllPages
      (fun i _ =>
        if i = 0 then
          Except.ok (pageResult [] (JsValue.boolean true) JsValue.null)
        else Except.ok ⟨JsValue.undef, some [⟨"boom", none⟩], none⟩)
      "items" 100 3 =
      { result := Except.error (gqlAppError (some [⟨"boom", none⟩]))
        calls := 1 + 1, warned := false } :=
  fetchAllPages_abortsOnAppError _ 100 3 1 (fun _ => []) (fun _ => JsValue.null)
    JsValue.undef [⟨"boom", none⟩] none (by omega) (by simp)
    (fun i hi vars => by interval_cases i; rfl)
    (fun vars => rfl)

/-- Counterexample for C9: a connectionPath that resolves to the truthy
non-object value "oops" does NOT make fetchAllPages throw: it returns an
empty ok result after one call, because the code only checks the
resolved connection for truthiness. -/
theorem fetchAllPages_truthyNonObject_noThrow :
    fetchAllPages stringConnectionEngine "items" 100 100 =
      { result := Except.ok [], calls := 1, warned := false } := by
  rfl

lemma fetchGo_falsyConnAtPage (engine : Engine) (pageSize : Nat)
    (ns : Nat → List JsValue) (cur : Nat → JsValue)
    (d : JsValue) (errs : Option (List GqlError)) (qc : Option String)
    (herrs : hasErrors ⟨d, errs, qc⟩ = false)
    (hconn : truthy (getNestedValue d "items") = false) :
    ∀ k r pc cursor acc, k < r →
    (∀ i, i < k → ∀ vars, engine (pc + i) vars =
      Except.ok (pageResult (ns (pc + i)) (JsValue.boolean true) (cur (pc + i)))) →
    (∀ vars, engine (pc + k) vars = Except.ok ⟨d, errs, qc⟩) →
    fetchGo engine "items" pageSize r pc cursor acc =
      { result := Except.error (connNotFoundError "items"), calls := k + 1, warned := false } := by
  intro k
  induction k with
  | zero =>
    intro r pc cursor acc hk hgood herr
    obtain ⟨r', rfl⟩ : ∃ r', r = r' + 1 := ⟨r - 1, by omega⟩
    have heng : engine pc ⟨pageSize, cursor⟩ = Except.ok ⟨d, errs, qc⟩ := by
      simpa using herr ⟨pageSize, cursor⟩
    simp [fetchGo, heng, herrs, hconn]
  | succ k ih =>
    intro r pc cursor acc hk hgood herr
    obtain ⟨r', rfl⟩ : ∃ r', r = r' + 1 := ⟨r - 1, by omega⟩
    have hg0 : engine pc ⟨pageSize, cursor⟩ =
        Except.ok (pageResult (ns pc) (JsValue.boolean true) (cur pc)) := by
      simpa using hgood 0 (by omega) ⟨pageSize, cursor⟩
    rw [fetchGo_goodPage engine pageSize r' pc cursor acc (ns pc)
      (JsValue.boolean true) (cur pc) hg0 rfl]
    rw [ih r' (pc + 1) (cur pc) (pushNodes acc ((ns pc).map mkEdge)) (by omega)
      (fun i hi vars => by
        have h := hgood (i + 1) (by omega) vars
        rwa [show pc + (i + 1) = pc + 1 + i from by omega] at h)
      (fun vars => by
        have h := herr vars
        rwa [show pc + (k + 1) = pc + 1 + k from by omega] at h)]

/-- C9 as amended: when, after k good pages (k < maxPages, each claiming
a next page), the page-k response has no errors and the connectionPath
resolves to a falsy value (missing, null, false, 0 or the empty string),
fetchAllPages aborts immediately at that page with the
connection-not-found error after k + 1 engine calls, without retrying
and discarding the nodes accumulated so far. -/
theorem fetchAllPages_falsyConnection_throws
    (engine : Engine) (pageSize maxPages k : Nat)
    (ns : Nat → List JsValue) (cur : Nat → JsValue)
    (d : JsValue) (errs : Option (List GqlError)) (qc : Option String)
    (hk : k < maxPages)
    (hgood : ∀ i, i < k → ∀ vars, engine i vars =
      Except.ok (pageResult (ns i) (JsValue.boolean true) (cur i)))
    (heng : ∀ vars, engine k vars = Except.ok ⟨d, errs, qc⟩)
    (herrs : hasErrors ⟨d, errs, qc⟩ = false)
    (hconn : truthy (getNestedValue d "items") = false) :
    fetchAllPages engine "items" pageSize maxPages =
      { result := Except.error (connNotFoundError "items")
        calls := k + 1, warned := false } := by
  rw [fetchAllPages]
  exact fetchGo_falsyConnAtPage engine pageSize ns cur d errs qc herrs hconn
    k maxPages 0 JsValue.null [] hk
    (fun i hi vars => by simpa using hgood i hi vars)
    (fun vars => by simpa using heng vars)

/-- Witness for C9 as amended: a second-page response whose data lacks
the path aborts after 2 calls with the shape error. -/
theorem fetchAllPages_falsyConnection_witness :
    fetchAllPages
      (fun i _ =>
        if i = 0 then
          Except.ok (pageResult [] (JsValue.boolean true) JsValue.null)
        else Except.ok ⟨JsValue.obj [], none, none⟩)
      "items" 100 3 =
      { result := Except.error (connNotFoundError "items")
        calls := 1 + 1, warned := false } :=
  fetchAllPages_falsyConnection_throws _ 100 3 1 (fun _ => []) (fun _ => JsValue.null)
    (JsValue.obj []) none none (by omega)
    (fun i hi vars => by interval_cases i; rfl)
    (fun vars => rfl) rfl rfl

/-- C10: on a resolved connection, only edges that are truthy and carry
a truthy node contribute their node to the result (in order), so the
number of items appended for a page is at most the number of edges the
server returned. -/
theorem fetchAllPages_skipsNodelessEdges
    (engine : Engine) (pageSize m : Nat) (es : List JsValue)
    (heng : engine 0 ⟨pageSize, JsValue.null⟩ = Except.ok (edgesOnlyResult es)) :
    fetchAllPages engine "items" pageSize (m + 1) =
      { result := Except.ok
          ((es.filter (fun e => truthy e && truthy (jsGetField e "node"))).map
            (fun e => jsGetField e "node"))
        calls := 1, warned := m == 0 } ∧
    ((es.filter (fun e => truthy e && truthy (jsGetField e "node"))).map
      (fun e => jsGetField e "node")).length ≤ es.length := by
  constructor
  · rw [fetchAllPages]
    simp [fetchGo, heng, edgesOnlyResult, hasErrors, getNestedValue_singleKey,
      edgesListOf, pushNodes_eq_filtered]
  · rw [List.length_map]
    exact List.length_filter_le _ es

/-- Witness for C10: of three edges (a null edge, an edge with no node,
and a good edge) only the good edge's node is returned. -/
theorem fetchAllPages_skipsNodelessEdges_witness :
    fetchAllPages
      (fun _ _ => Except.ok (edgesOnlyResult
        [JsValue.null, JsValue.obj [], mkEdge (JsValue.str "keep")]))
      "items" 100 (99 + 1) =
      { result := Except.ok
          (([JsValue.null, JsValue.obj [], mkEdge (JsValue.str "keep")].filter
              (fun e => truthy e && truthy (jsGetField e "node"))).map
            (fun e => jsGetField e "node"))
        calls := 1, warned := (99 == 0) } ∧
    (([JsValue.null, JsValue.obj [], mkEdge (JsValue.str "keep")].filter
        (fun e => truthy e && truthy (jsGetField e "node"))).map
      (fun e => jsGetField e "node")).length ≤
      [JsValue.null, JsValue.obj [], mkEdge (JsValue.str "keep")].length :=
  fetchAllPages_skipsNodelessEdges _ 100 99 _ rfl

lemma findWait_of_leftmost (n : Nat) :
    ∀ cs : List Char,
    (∃ i, matchWaitAt (cs.drop i) = some n ∧
      ∀ j, j < i → matchWaitAt (cs.drop j) = none) →
    findWait cs = some n := by
  intro cs
  induction cs with
  | nil =>
    rintro ⟨i, hi, -⟩
    simp [List.drop_nil] at hi
    rw [show matchWaitAt [] = none from rfl] at hi
    exact absurd hi (by simp)
  | cons c cs ih =>
    rintro ⟨i, hi, hlt⟩
    cases i with
    | zero =>
      simp only [List.drop] at hi
      simp [findWait, hi]
    | succ i =>
      have h0 : matchWaitAt (c :: cs) = none := by
        simpa using hlt 0 (Nat.succ_pos i)
      rw [findWait, h0]
      exact ih ⟨i, by simpa using hi, fun j hj => by simpa using hlt (j + 1) (by omega)⟩

lemma findWait_of_noMatch :
    ∀ cs : List Char, (∀ i, matchWaitAt (cs.drop i) = none) → findWait cs = none := by
  intro cs
  induction cs with
  | nil => intro _; rfl
  | cons c cs ih =>
    intro h
    have h0 : matchWaitAt (c :: cs) = none := by simpa using h 0
    rw [findWait, h0]
    exact ih (fun i => by simpa using h (i + 1))

/-- C5: the parsed wait delay is the numeric group of the leftmost
occurrence of the wait-time pattern (the source's regex wait\s+(\d+)ms
with the /i flag, matched at the smallest possible start position), the
example rate-limit message parses to exactly 437, and a message with no
occurrence of the pattern anywhere parses to the 500ms default. -/
theorem parseWaitTime_leftmostOrDefault :
    (∀ (msg : String) (n : Nat),
      (∃ i, matchWaitAt (msg.toList.drop i) = some n ∧
        ∀ j, j < i → matchWaitAt (msg.toList.drop j) = none) →
      parseWaitTime msg = n) ∧
    (∀ msg : String, (∀ i, matchWaitAt (msg.toList.drop i) = none) →
      parseWaitTime msg = 500) ∧
    parseWaitTime rateLimitMsg437 = 437 := by
  refine ⟨?_, ?_, by decide⟩
  · intro msg n h
    rw [parseWaitTime, findWait_of_leftmost n msg.toList h]
  · intro msg h
    rw [parseWaitTime, findWait_of_noMatch msg.toList h]

/-- Witness for C5 at a concrete message whose leftmost pattern match
captures 42. -/
theorem parseWaitTime_leftmost_witness :
    parseWaitTime "please wait 42ms, thanks" = 42 :=
  parseWaitTime_leftmostOrDefault.1 "please wait 42ms, thanks" 42
    ⟨7, by decide, fun j hj => by interval_cases j <;> decide⟩

/-- Counterexample for C6: with options.maxRetries = 0, an HTTP 200
response whose errors array matches the rate-limit signature (and even
carries an explicit 437ms wait) is NOT retried: executeGraphQL performs
exactly one attempt, sleeps nothing, and returns the rate-limited body,
because the retry guard requires attempt < maxRetries. -/
theorem rateLimit_noRetry_at_zero_budget :
    executeGraphQL rateLimitedOutcomes 0 =
      { attempts := 1, delays := []
        outcome := Except.ok
          { data := JsValue.undef
            errors := some [⟨rateLimitMsg437, none⟩]
            queryComplexity := none } } := by
  rfl

/-- C6 as amended: a rate-limit signal on an OK response is retried only
when attempts remain (attempt < maxRetries) and the parsed wait time is
nonzero; the retry sleeps the parsed wait time first and draws on the
same shared attempt budget as transport errors (the loop proceeds to the
next attempt index against the same maxRetries counter). -/
theorem rateLimit_retry_sharesBudget
    (outcomes : Nat → AttemptOutcome) (maxRetries attempt fuel status : Nat)
    (statusText bodyText : String) (d : JsValue)
    (errs : Option (List GqlError)) (retryAfterSecs : Option Nat)
    (qc : Option String) (ge : GqlError)
    (h0 : outcomes attempt =
      AttemptOutcome.response status statusText bodyText (BodyKind.object d errs) retryAfterSecs qc)
    (hok : statusOk status = true)
    (hfind : findRateLimitError errs = some ge)
    (hwait : parseWaitTime ge.message ≠ 0)
    (hrem : attempt < maxRetries) :
    execGo outcomes maxRetries attempt (fuel + 1) =
      { attempts := (execGo outcomes maxRetries (attempt + 1) fuel).attempts + 1
        delays := parseWaitTime ge.message ::
          (execGo outcomes maxRetries (attempt + 1) fuel).delays
        outcome := (execGo outcomes maxRetries (attempt + 1) fuel).outcome } := by
  simp only [execGo, h0, hok, if_true, hfind]
  rw [if_pos ⟨hwait, hrem⟩]

/-- Witness for C6 as amended: with budget 2 the first rate-limited
attempt retries after sleeping the parsed 437ms. -/
theorem rateLimit_retry_sharesBudget_witness :
    execGo rateLimitedOutcomes 2 0 3 =
      { attempts := (execGo rateLimitedOutcomes 2 1 2).attempts + 1
        delays := parseWaitTime rateLimitMsg437 :: (execGo rateLimitedOutcomes 2 1 2).delays
        outcome := (execGo rateLimitedOutcomes 2 1 2).outcome } :=
  rateLimit_retry_sharesBudget rateLimitedOutcomes 2 0 2 200 "OK" "body"
    JsValue.undef (some [⟨rateLimitMsg437, none⟩]) none none ⟨rateLimitMsg437, none⟩
    rfl rfl rfl (by decide) (by decide)

/-- C3: a non-2xx HTTP status that is neither 429 nor at least 500 causes
exactly one HTTP attempt regardless of the retry budget, failing
immediately with an error carrying the status and a body snippet
truncated to 500 characters; and a non-OK status is classified retryable
exactly when it is 429 or at least 500. -/
theorem nonRetryableStatus_failsImmediately
    (outcomes : Nat → AttemptOutcome) (maxRetries status : Nat)
    (statusText bodyText : String) (body : BodyKind)
    (retryAfterSecs : Option Nat) (qc : Option String)
    (h0 : outcomes 0 = AttemptOutcome.response status statusText bodyText body retryAfterSecs qc)
    (hok : statusOk status = false)
    (h429 : status ≠ 429) (h5xx : status < 500) :
    executeGraphQL outcomes maxRetries =
      { attempts := 1, delays := []
        outcome := Except.error (httpErrorOf status statusText bodyText retryAfterSecs) } ∧
    (httpErrorOf status statusText bodyText retryAfterSecs).status = some status ∧
    (bodyText ≠ "" → (httpErrorOf status statusText bodyText retryAfterSecs).message =
      "HTTP " ++ toString status ++ " " ++ statusText ++ ": " ++ bodyText.take 500) ∧
    (∀ st₂ : Nat, ∀ sT bT : String, ∀ ra : Option Nat,
      ((httpErrorOf st₂ sT bT ra).retryable = true ↔ (st₂ = 429 ∨ 500 ≤ st₂))) := by
  refine ⟨?_, rfl, ?_, ?_⟩
  · have hre := httpError_not_retryable status statusText bodyText retryAfterSecs h429 h5xx
    simp [executeGraphQL, execGo, h0, hok, hre]
  · intro hbt
    simp [httpErrorOf, hbt, String.append_assoc]
  · intro st₂ sT bT ra
    simp only [httpErrorOf, Bool.or_eq_true_iff]
    constructor
    · rintro (h | h)
      · left; simpa using h
      · right; simpa using h
    · rintro (h | h)
      · left; simp [h]
      · right; simp [h]

/-- Witness for C3 at a concrete 400 response with retry budget 5. -/
theorem nonRetryableStatus_witness :
    executeGraphQL
      (fun _ => AttemptOutcome.response 400 "Bad Request" "nope"
        (BodyKind.object JsValue.undef none) none none) 5 =
      { attempts := 1, delays := []
        outcome := Except.error (httpErrorOf 400 "Bad Request" "nope" none) } :=
  (nonRetryableStatus_failsImmediately _ 5 400 "Bad Request" "nope"
    (BodyKind.object JsValue.undef none) none none rfl (by decide) (by decide) (by decide)).1

/-- C4: on a retryable HTTP failure with attempts remaining, the delay
slept before the next attempt is the Retry-After header value converted
from seconds to milliseconds when the header is present, and otherwise
the exponential backoff min(1000 * 2 ^ attempt, 10000). -/
theorem retryableHttp_delay_prefersRetryAfter
    (outcomes : Nat → AttemptOutcome) (maxRetries attempt fuel status : Nat)
    (statusText bodyText : String) (body : BodyKind)
    (retryAfterSecs : Option Nat) (qc : Option String)
    (h0 : outcomes attempt = AttemptOutcome.response status statusText bodyText body retryAfterSecs qc)
    (hok : statusOk status = false)
    (hretry : status = 429 ∨ 500 ≤ status)
    (hrem : attempt < maxRetries) :
    (execGo outcomes maxRetries attempt (fuel + 1)).delays.head? =
      some (match retryAfterSecs with
        | some secs => secs * 1000
        | none => min (1000 * 2 ^ attempt) 10000) := by
  have hre := httpError_retryable status statusText bodyText retryAfterSecs hretry
  simp only [execGo, h0, hok, Bool.false_eq_true, if_false, hre, true_and]
  rw [if_pos hrem]
  cases retryAfterSecs <;> simp [retryDelayOf, httpErrorOf, backoffDelay]

/-- Witness for C4: a Retry-After of 2 seconds on a 429 yields a 2000ms
delay before the next attempt. -/
theorem retryableHttp_delay_witness :
    (execGo
      (fun _ => AttemptOutcome.response 429 "Too Many Requests" "slow"
        BodyKind.unparseable (some 2) none) 3 0 4).delays.head? = some 2000 :=
  retryableHttp_delay_prefersRetryAfter _ 3 0 3 429 "Too Many Requests" "slow"
    BodyKind.unparseable (some 2) none rfl (by decide) (Or.inl rfl) (by decide)
